import Mathlib

/-!
Verification development for the llm-consensus repository.

Shallow embedding of the core components:
* `Request` / `Response`            — internal/provider/provider.go data model
* `Provider` capability             — interface with `Query` and `QueryStream`;
  `QueryStream` is modelled as returning, next to the query outcome, the list
  of chunks delivered (in order) to the stream callback; the `Bool` argument
  records whether a non-nil callback was supplied.
* `ProviderFunc`                    — the function-wrapping adapter
* `Registry`                        — internal/provider/registry.go, with the
  Go map modelled as a function `String → Option Provider`
* `Runner.Run`                      — internal/runner (the streaming snapshot
  with callbacks); the mutex-serialized appends performed by the concurrent
  per-model tasks are linearized in request order.  All claims proved about
  `Run` (lengths, membership, aggregate error) are invariant under the chosen
  linearization.  Per-model timeouts and context cancellation are absorbed
  into the provider outcome (a timed-out query is a provider error), and the
  progress callbacks are observational only — they never touch the
  accumulators — so they are not part of the pure model.
* two `Judge` snapshots, both present in the repository sources:
  `consensus.Judge` (internal/consensus/judge.go, Query-based, first template)
  and `consensusStream.Judge` (the streaming variant embedded in
  internal/output/output.go, QueryStream-based, second template).  Both
  synthesize operations additionally return the list of requests issued to
  the judge provider, so "no provider call" is the trace being empty.
-/

namespace LLMC

/-- Type `Request` from internal/provider/provider.go: all inputs for an LLM query. -/
structure Request where
  Model : String
  Prompt : String
  deriving DecidableEq, Repr

/-- Type `Response` from internal/provider/provider.go: the result of an LLM query.
`Latency` (a Go `time.Duration`) is modelled as a natural number of
nanoseconds. -/
structure Response where
  Model : String
  Content : String
  Provider : String
  Latency : Nat
  deriving DecidableEq, Repr

/-- The `Provider` interface from internal/provider/provider.go.  `Query`
either fails (Go `error`, modelled as its message string) or returns a
response.  `QueryStream` receives a flag telling whether a non-nil callback
was supplied and returns the query outcome together with the list of chunks
it delivered to the callback, in delivery order. -/
structure Provider where
  Query : Request → Except String Response
  QueryStream : Request → Bool → Except String Response × List String

/-- The `ProviderFunc` adapter from internal/provider/provider.go.  `Query` calls
the function; `QueryStream` calls the function and, on success, invokes the
callback once with the full content (when the callback is non-nil). -/
def ProviderFunc (f : Request → Except String Response) : Provider where
  Query := f
  QueryStream := fun req cbPresent =>
    match f req with
    | .error e => (.error e, [])
    | .ok resp => (.ok resp, if cbPresent then [resp.Content] else [])

/-- The registry state from internal/provider/registry.go: the Go map
`map[string]Provider` modelled as a partial function. -/
def Registry : Type := String → Option Provider

/-- Function `NewRegistry` from internal/provider/registry.go: the empty map. -/
def NewRegistry : Registry := fun _ => none

/-- Method `Registry.Register`: associates a model name with a provider, overwriting
any previous binding (Go map assignment `r.providers[model] = p`). -/
def Registry.Register (r : Registry) (model : String) (p : Provider) : Registry :=
  fun k => if k = model then some p else r k

/-- Method `Registry.Get`: retrieves the provider for a model, failing with the
`unknown model: <model>` error when the model is not registered. -/
def Registry.Get (r : Registry) (model : String) : Except String Provider :=
  match r model with
  | some p => .ok p
  | none => .error ("unknown model: " ++ model)

/-- Type `Result` from internal/runner: outcomes of querying multiple models. -/
structure Result where
  Responses : List Response
  Warnings : List String
  FailedModels : List String
  deriving Repr

/-- Type `Runner` from internal/runner.  The per-model `timeout` is carried for
fidelity but plays no role in the pure model (a timed-out query shows up as
its provider's error); the progress callbacks are observational only and are
omitted. -/
structure Runner where
  registry : Registry
  timeout : Nat

/-- Function `New` from internal/runner. -/
def Runner.New (registry : Registry) (timeout : Nat) : Runner :=
  { registry := registry, timeout := timeout }

/-- The mutable accumulator of `Runner.Run` (`responses`, `warnings`,
`failedModels`), guarded by one mutex in the source. -/
structure RunState where
  responses : List Response
  warnings : List String
  failedModels : List String
  deriving Repr

/-- One per-model task body from `Runner.Run` (internal/runner): look the
model up in the registry — a miss appends the warning `<model>: <error>` and
the model to `failedModels` — otherwise issue `QueryStream` with the (always
non-nil) stream callback; a query error is recorded the same way, and a
success appends the response.  Every task returns `nil` to the errgroup. -/
def runTask (reg : Registry) (prompt : String) (st : RunState) (model : String) : RunState :=
  match Registry.Get reg model with
  | .error err =>
    { st with
      warnings := st.warnings ++ [model ++ ": " ++ err]
      failedModels := st.failedModels ++ [model] }
  | .ok p =>
    match (p.QueryStream { Model := model, Prompt := prompt } true).1 with
    | .error err =>
      { st with
        warnings := st.warnings ++ [model ++ ": " ++ err]
        failedModels := st.failedModels ++ [model] }
    | .ok resp => { st with responses := st.responses ++ [resp] }

/-- The accumulation phase of `Runner.Run`: all per-model tasks run and their
mutex-protected appends are linearized in request order. -/
def Runner.collect (r : Runner) (models : List String) (prompt : String) : RunState :=
  models.foldl (runTask r.registry prompt) ⟨[], [], []⟩

/-- Go's `fmt.Sprintf "%v"` rendering of a `[]string`, as used in the
all-models-failed error message: elements space-separated inside brackets. -/
def goFormatStringList (ws : List String) : String :=
  "[" ++ String.intercalate " " ws ++ "]"

/-- Method `Runner.Run` from internal/runner: wait for all tasks (none of which ever
returns an error to the errgroup), then fail with the aggregate
`all models failed` error when zero responses were collected, otherwise
return the accumulated `Result`. -/
def Runner.Run (r : Runner) (models : List String) (prompt : String) : Except String Result :=
  let st := r.collect models prompt
  if st.responses.length = 0 then
    .error ("all models failed: " ++ goFormatStringList st.warnings)
  else
    .ok { Responses := st.responses, Warnings := st.warnings, FailedModels := st.failedModels }

/-- Whether one model's task succeeds (registry hit and successful streaming
query), i.e. contributes a response rather than a failed-model entry. -/
def modelSucceeds (reg : Registry) (prompt : String) (model : String) : Bool :=
  match Registry.Get reg model with
  | .error _ => false
  | .ok p =>
    match (p.QueryStream { Model := model, Prompt := prompt } true).1 with
    | .error _ => false
    | .ok _ => true

/-- The contribution of a single model's task to the accumulator. -/
def taskOutcome (reg : Registry) (prompt : String) (model : String) : RunState :=
  runTask reg prompt ⟨[], [], []⟩ model

/-- Componentwise concatenation of accumulator states. -/
def RunState.app (a b : RunState) : RunState :=
  ⟨a.responses ++ b.responses, a.warnings ++ b.warnings, a.failedModels ++ b.failedModels⟩

/-- The `{{range .Responses}}` loop of Go's text/template: the per-response
block text, appended to the buffer in input order. -/
def foldBlocks (blk : Response → String) : List Response → String
  | [] => ""
  | r :: rs => blk r ++ foldBlocks blk rs

namespace consensus

/-- The Query-based `Judge` from internal/consensus/judge.go. -/
structure Judge where
  provider : Provider
  model : String

/-- Function `NewJudge` from internal/consensus/judge.go. -/
def NewJudge (p : Provider) (model : String) : Judge :=
  { provider := p, model := model }

/-- Literal template text of `judgePromptTemplate` (internal/consensus/judge.go)
before the `{{.Prompt}}` action. -/
def tmplHead : String :=
  "You are a judge synthesizing responses from multiple AI models.\n\nUser's original prompt:\n"

/-- Literal template text between `{{.Prompt}}` and `{{range .Responses}}`. -/
def tmplMid : String := "\n\nModel responses:\n"

/-- One iteration of the `{{range .Responses}}` body of the template:
`\n--- <Model> (<Provider>) ---\n<Content>\n\n`. -/
def blockOf (r : Response) : String :=
  "\n--- " ++ r.Model ++ " (" ++ r.Provider ++ ") ---\n" ++ r.Content ++ "\n\n"

/-- Literal template text after `{{end}}`. -/
def tmplTail : String :=
  "\nSynthesize a consensus response that:\n1. Identifies points of agreement across models\n2. Resolves contradictions by reasoning through them\n3. Produces a single, coherent answer that represents the best synthesis\n\nProvide only the consensus response, without meta-commentary about the synthesis process."

/-- Expansion of `judgePromptTemplate` (internal/consensus/judge.go) by Go's
text/template on `{Prompt, Responses}`: literal text interleaved with the
data fields, with the range body repeated per response in input order.
Template execution cannot fail on this data (plain string fields), so the
`tmpl.Execute` error branch of `Synthesize` is unreachable. -/
def buildJudgePrompt (prompt : String) (responses : List Response) : String :=
  tmplHead ++ prompt ++ tmplMid ++ foldBlocks blockOf responses ++ tmplTail

/-- Method `Judge.Synthesize` from internal/consensus/judge.go, instrumented with
the list of requests issued to the judge provider (second component): empty
input fails, a single response is returned verbatim with no provider call,
otherwise the expanded template is sent via `Query`. -/
def Judge.Synthesize (j : Judge) (originalPrompt : String) (responses : List Response) :
    Except String String × List Request :=
  match responses with
  | [] => (.error "no responses to synthesize", [])
  | [r] => (.ok r.Content, [])
  | _ =>
    let req : Request := { Model := j.model, Prompt := buildJudgePrompt originalPrompt responses }
    match j.provider.Query req with
    | .error e => (.error ("judge query failed: " ++ e), [req])
    | .ok resp => (.ok resp.Content, [req])

end consensus

namespace consensusStream

/-- The streaming `Judge` snapshot of package consensus found in
src/internal/output/output.go. -/
structure Judge where
  provider : Provider
  model : String

/-- Function `NewJudge` of the streaming snapshot. -/
def NewJudge (p : Provider) (model : String) : Judge :=
  { provider := p, model := model }

/-- Literal text of the streaming snapshot's `judgePromptTemplate` before
`{{.Prompt}}` (the raw string opens with a newline). -/
def tmplHead : String :=
  "\nRole\nYou are an expert synthesis judge and careful editor. Your job is to combine multiple AI model responses into one best-possible answer to the user.\n\nInputs\nUser's original prompt:\n"

/-- Literal template text between `{{.Prompt}}` and `{{range .Responses}}`. -/
def tmplMid : String := "\n\nModel responses:\n"

/-- One iteration of the range body:
`\n--- Model: <Model> | Provider: <Provider> ---\n<Content>\n\n`. -/
def blockOf (r : Response) : String :=
  "\n--- Model: " ++ r.Model ++ " | Provider: " ++ r.Provider ++ " ---\n" ++ r.Content ++ "\n\n"

/-- Literal template text after `{{end}}`. -/
def tmplTail : String :=
  "\n\nTask\nProduce ONE final answer that directly addresses the user's original prompt by synthesizing the model responses.\n\nMethod\n1) Infer the user's intent and constraints from the original prompt (scope, tone, formatting, assumptions). Follow them.\n2) Extract the strongest points that are supported and/or repeated across responses.\n3) Resolve conflicts:\n   - Prefer statements that are more logically sound, more specific, and better justified.\n   - Prefer safer, broadly valid guidance over speculative or brittle claims.\n   - If uncertainty remains, choose the most defensible formulation and qualify it briefly.\n4) Fill gaps only when needed to make the answer complete and usable. Do not invent facts; do not add extraneous content.\n\nOutput Requirements\n- Output ONLY the final synthesized answer (no preamble, no meta-commentary, no mention of models or “consensus”).\n- Do not quote or reference individual model responses.\n- Keep the answer coherent, non-redundant, and well-structured (use bullets/steps/headings if helpful).\n- Match formatting appropriate to the task (e.g., code blocks for code).\n"

/-- Expansion of the streaming snapshot's `judgePromptTemplate` by Go's
text/template on `{Prompt, Responses}`. -/
def buildJudgePrompt (prompt : String) (responses : List Response) : String :=
  tmplHead ++ prompt ++ tmplMid ++ foldBlocks blockOf responses ++ tmplTail

/-- Method `Judge.SynthesizeStream` (src/internal/output/output.go), instrumented
with the list of requests issued to the judge provider (second component)
and the chunks delivered to the callback in delivery order (third
component); `cbPresent` records whether a non-nil callback was supplied.
Empty input fails; a single response is returned verbatim, the callback
receiving its full content once; otherwise the expanded template is sent via
`QueryStream`, the callback being handed through to the provider. -/
def Judge.SynthesizeStream (j : Judge) (originalPrompt : String) (responses : List Response)
    (cbPresent : Bool) : Except String String × List Request × List String :=
  match responses with
  | [] => (.error "no responses to synthesize", [], [])
  | [r] => (.ok r.Content, [], if cbPresent then [r.Content] else [])
  | _ =>
    let req : Request := { Model := j.model, Prompt := buildJudgePrompt originalPrompt responses }
    match j.provider.QueryStream req cbPresent with
    | (.error e, chunks) => (.error ("judge query failed: " ++ e), [req], chunks)
    | (.ok resp, chunks) => (.ok resp.Content, [req], chunks)

/-- Method `Judge.Synthesize` of the streaming snapshot: delegates to
`SynthesizeStream` with a nil callback. -/
def Judge.Synthesize (j : Judge) (originalPrompt : String) (responses : List Response) :
    Except String String × List Request × List String :=
  Judge.SynthesizeStream j originalPrompt responses false

end consensusStream

/-- String `s` contains the given needles, in order and without overlap: the first
needle occurs in `s` and the remaining ones occur, in order, in the part of
`s` after it. -/
def containsInOrder (s : String) : List String → Prop
  | [] => True
  | n :: ns => ∃ a b : String, s = a ++ n ++ b ∧ containsInOrder b ns

/-- For each response, in input order, its model name, provider name and
content — the items claim P5 requires the judge prompt to contain. -/
def responseNeedles : List Response → List String
  | [] => []
  | r :: rs => r.Model :: r.Provider :: r.Content :: responseNeedles rs

/-- A sample query function used by the concrete witnesses: answers every
request with the given content. -/
def sampleQuery (name content : String) : Request → Except String Response :=
  fun req => .ok { Model := req.Model, Content := content, Provider := name, Latency := 0 }

/-- A sample provider used by the concrete witnesses: answers every request
with the given content (via the function-wrapping adapter). -/
def sampleProvider (name content : String) : Provider :=
  ProviderFunc (sampleQuery name content)

/-- A sample provider that fails every request with the given message. -/
def failingProvider (msg : String) : Provider :=
  ProviderFunc (fun _ => .error msg)

/-- A sample registry used by the concrete witnesses: only model `a` is
registered. -/
def sampleRegistry : Registry :=
  NewRegistry.Register "a" (sampleProvider "test" "A")

/-- Sample responses used by the concrete witnesses. -/
def respA : Response :=
  { Model := "a", Content := "answer a", Provider := "openai", Latency := 0 }

def respB : Response :=
  { Model := "b", Content := "answer b", Provider := "anthropic", Latency := 0 }

/-! Helper lemmas about the runner's accumulator. -/

theorem RunState.app_assoc (a b c : RunState) : (a.app b).app c = a.app (b.app c) := by
  simp [RunState.app]

theorem RunState.nil_app (a : RunState) : RunState.app ⟨[], [], []⟩ a = a := by
  cases a
  simp [RunState.app]

theorem RunState.app_nil (a : RunState) : a.app ⟨[], [], []⟩ = a := by
  cases a
  simp [RunState.app]

theorem runTask_eq (reg : Registry) (prompt : String) (st : RunState) (model : String) :
    runTask reg prompt st model = st.app (taskOutcome reg prompt model) := by
  cases hg : Registry.Get reg model with
  | error e => simp [runTask, taskOutcome, RunState.app, hg]
  | ok p =>
    cases hq : (p.QueryStream { Model := model, Prompt := prompt } true).1 with
    | error e => simp [runTask, taskOutcome, RunState.app, hg, hq]
    | ok resp => simp [runTask, taskOutcome, RunState.app, hg, hq]

theorem foldl_runTask_app (reg : Registry) (prompt : String) (ms : List String) :
    ∀ st : RunState, ms.foldl (runTask reg prompt) st
      = st.app (ms.foldl (runTask reg prompt) ⟨[], [], []⟩) := by
  induction ms with
  | nil => intro st; simp [RunState.app_nil]
  | cons m ms ih =>
    intro st
    simp only [List.foldl_cons]
    rw [ih (runTask reg prompt st m), ih (runTask reg prompt ⟨[], [], []⟩ m),
        runTask_eq reg prompt st m, runTask_eq reg prompt ⟨[], [], []⟩ m,
        RunState.nil_app, RunState.app_assoc]

theorem Runner.collect_cons (r : Runner) (prompt : String) (m : String) (ms : List String) :
    r.collect (m :: ms) prompt
      = (taskOutcome r.registry prompt m).app (r.collect ms prompt) := by
  show (m :: ms).foldl (runTask r.registry prompt) ⟨[], [], []⟩ = _
  rw [List.foldl_cons, foldl_runTask_app, runTask_eq, RunState.nil_app]
  rfl

theorem Runner.collect_append (r : Runner) (prompt : String) (l₁ l₂ : List String) :
    r.collect (l₁ ++ l₂) prompt = (r.collect l₁ prompt).app (r.collect l₂ prompt) := by
  show (l₁ ++ l₂).foldl (runTask r.registry prompt) ⟨[], [], []⟩ = _
  rw [List.foldl_append, foldl_runTask_app]
  rfl

theorem taskOutcome_of_succeeds (reg : Registry) (prompt : String) (m : String)
    (h : modelSucceeds reg prompt m = true) :
    ∃ resp, taskOutcome reg prompt m = ⟨[resp], [], []⟩ := by
  unfold modelSucceeds at h
  cases hg : Registry.Get reg m with
  | error e => simp [hg] at h
  | ok p =>
    simp only [hg] at h
    cases hq : (p.QueryStream { Model := m, Prompt := prompt } true).1 with
    | error e => simp [hq] at h
    | ok resp =>
      exact ⟨resp, by simp [taskOutcome, runTask, hg, hq]⟩

theorem taskOutcome_of_fails (reg : Registry) (prompt : String) (m : String)
    (h : modelSucceeds reg prompt m = false) :
    ∃ w, taskOutcome reg prompt m = ⟨[], [w], [m]⟩ := by
  unfold modelSucceeds at h
  cases hg : Registry.Get reg m with
  | error e =>
    exact ⟨m ++ ": " ++ e, by simp [taskOutcome, runTask, hg]⟩
  | ok p =>
    simp only [hg] at h
    cases hq : (p.QueryStream { Model := m, Prompt := prompt } true).1 with
    | error e =>
      exact ⟨m ++ ": " ++ e, by simp [taskOutcome, runTask, hg, hq]⟩
    | ok resp => simp [hq] at h

theorem taskOutcome_of_unregistered (reg : Registry) (prompt : String) (m : String)
    (h : reg m = none) :
    taskOutcome reg prompt m = ⟨[], [m ++ ": " ++ ("unknown model: " ++ m)], [m]⟩ := by
  simp [taskOutcome, runTask, Registry.Get, h]

theorem collect_responses_length (r : Runner) (prompt : String) (ms : List String) :
    (r.collect ms prompt).responses.length
      = (ms.filter (fun m => modelSucceeds r.registry prompt m)).length := by
  induction ms with
  | nil => rfl
  | cons m ms ih =>
    rw [Runner.collect_cons]
    cases h : modelSucceeds r.registry prompt m with
    | true =>
      obtain ⟨resp, ho⟩ := taskOutcome_of_succeeds r.registry prompt m h
      simp [ho, RunState.app, List.filter, h, ih]
    | false =>
      obtain ⟨w, ho⟩ := taskOutcome_of_fails r.registry prompt m h
      simp [ho, RunState.app, List.filter, h, ih]

theorem collect_failedModels (r : Runner) (prompt : String) (ms : List String) :
    (r.collect ms prompt).failedModels
      = ms.filter (fun m => !(modelSucceeds r.registry prompt m)) := by
  induction ms with
  | nil => rfl
  | cons m ms ih =>
    rw [Runner.collect_cons]
    cases h : modelSucceeds r.registry prompt m with
    | true =>
      obtain ⟨resp, ho⟩ := taskOutcome_of_succeeds r.registry prompt m h
      simp [ho, RunState.app, List.filter, h, ih]
    | false =>
      obtain ⟨w, ho⟩ := taskOutcome_of_fails r.registry prompt m h
      simp [ho, RunState.app, List.filter, h, ih]

theorem collect_warnings_length (r : Runner) (prompt : String) (ms : List String) :
    (r.collect ms prompt).warnings.length
      = (ms.filter (fun m => !(modelSucceeds r.registry prompt m))).length := by
  induction ms with
  | nil => rfl
  | cons m ms ih =>
    rw [Runner.collect_cons]
    cases h : modelSucceeds r.registry prompt m with
    | true =>
      obtain ⟨resp, ho⟩ := taskOutcome_of_succeeds r.registry prompt m h
      simp [ho, RunState.app, List.filter, h, ih]
    | false =>
      obtain ⟨w, ho⟩ := taskOutcome_of_fails r.registry prompt m h
      simp [ho, RunState.app, List.filter, h, ih]

theorem length_filter_add_length_filter_not (l : List String) (p : String → Bool) :
    (l.filter p).length + (l.filter (fun m => !(p m))).length = l.length := by
  induction l with
  | nil => rfl
  | cons a l ih =>
    cases h : p a <;> simp [List.filter, h] <;> omega

theorem run_eq_error (r : Runner) (models : List String) (prompt : String)
    (h : (r.collect models prompt).responses = []) :
    r.Run models prompt
      = .error ("all models failed: " ++ goFormatStringList (r.collect models prompt).warnings) := by
  simp [Runner.Run, h]

theorem run_eq_ok (r : Runner) (models : List String) (prompt : String)
    (h : (r.collect models prompt).responses ≠ []) :
    r.Run models prompt
      = .ok
          { Responses := (r.collect models prompt).responses
            Warnings := (r.collect models prompt).warnings
            FailedModels := (r.collect models prompt).failedModels } := by
  have hl : ¬((r.collect models prompt).responses.length = 0) := by
    simpa [List.length_eq_zero] using h
  simp [Runner.Run, hl]

theorem run_ok_iff (r : Runner) (models : List String) (prompt : String) :
    (∃ res, r.Run models prompt = .ok res) ↔ (r.collect models prompt).responses ≠ [] := by
  constructor
  · rintro ⟨res, hres⟩ hnil
    rw [run_eq_error r models prompt hnil] at hres
    exact Except.noConfusion hres
  · intro h
    exact ⟨_, run_eq_ok r models prompt h⟩

/-! Helper lemmas about ordered containment in the judge prompt. -/

theorem containsInOrder_append_left (t s : String) (ns : List String)
    (h : containsInOrder s ns) : containsInOrder (t ++ s) ns := by
  cases ns with
  | nil => trivial
  | cons n ns =>
    obtain ⟨a, b, hab, hrest⟩ := h
    exact ⟨t ++ a, b, by rw [hab]; simp [String.append_assoc], hrest⟩

theorem foldBlocks_contains (s₁ s₂ s₃ s₄ : String) (blk : Response → String)
    (hblk : ∀ r, blk r = s₁ ++ r.Model ++ s₂ ++ r.Provider ++ s₃ ++ r.Content ++ s₄)
    (tail : String) :
    ∀ rs : List Response, containsInOrder (foldBlocks blk rs ++ tail) (responseNeedles rs) := by
  intro rs
  induction rs with
  | nil => trivial
  | cons r rs ih =>
    show containsInOrder _ (r.Model :: r.Provider :: r.Content :: responseNeedles rs)
    refine ⟨s₁, s₂ ++ (r.Provider ++ (s₃ ++ (r.Content ++ (s₄ ++ (foldBlocks blk rs ++ tail))))),
      ?_, s₂, s₃ ++ (r.Content ++ (s₄ ++ (foldBlocks blk rs ++ tail))),
      ?_, s₃, s₄ ++ (foldBlocks blk rs ++ tail), ?_,
      containsInOrder_append_left s₄ _ _ ih⟩
    · show foldBlocks blk (r :: rs) ++ tail = _
      rw [foldBlocks, hblk r]
      simp [String.append_assoc]
    · simp [String.append_assoc]
    · simp [String.append_assoc]

/-! Claim theorems. -/

/-- C3: for every prompt and every response list of length exactly one, both
`Synthesize` implementations (the Query-based judge of
internal/consensus/judge.go and the streaming judge of
internal/output/output.go) return that single response's `Content` unchanged
and issue no provider call at all — the list of requests sent to the judge
provider is empty, so neither `Query` nor `QueryStream` is invoked. -/
theorem synthesize_single_passthrough (j₁ : consensus.Judge) (j₂ : consensusStream.Judge)
    (prompt : String) (r : Response) :
    consensus.Judge.Synthesize j₁ prompt [r] = (.ok r.Content, [])
    ∧ consensusStream.Judge.Synthesize j₂ prompt [r] = (.ok r.Content, [], []) :=
  ⟨rfl, rfl⟩

/-- C7: for every provider function `f` and request on which `f` succeeds,
the function-wrapping adapter's `QueryStream` delivers exactly one chunk —
the full content — to a non-nil callback (and none to a nil callback), so
the concatenation of the delivered chunks equals the returned response's
`Content`. -/
theorem providerFunc_stream_concat (f : Request → Except String Response) (req : Request)
    (resp : Response) (h : f req = .ok resp) :
    (ProviderFunc f).QueryStream req true = (.ok resp, [resp.Content])
    ∧ (ProviderFunc f).QueryStream req false = (.ok resp, [])
    ∧ String.join [resp.Content] = resp.Content := by
  refine ⟨?_, ?_, ?_⟩ <;> simp [ProviderFunc, h, String.join]

/-- Witness for C7 at a concrete provider function and request. -/
theorem providerFunc_stream_concat_witness :
    (ProviderFunc (sampleQuery "test" "hello")).QueryStream { Model := "m", Prompt := "p" } true
      = (.ok { Model := "m", Content := "hello", Provider := "test", Latency := 0 }, ["hello"])
    ∧ (ProviderFunc (sampleQuery "test" "hello")).QueryStream { Model := "m", Prompt := "p" } false
      = (.ok { Model := "m", Content := "hello", Provider := "test", Latency := 0 }, [])
    ∧ String.join ["hello"] = "hello" :=
  providerFunc_stream_concat (sampleQuery "test" "hello") { Model := "m", Prompt := "p" }
    { Model := "m", Content := "hello", Provider := "test", Latency := 0 } rfl

/-- C8: `Get` immediately after `Register` returns the registered provider;
re-registering the same model overwrites (last registration wins) while
every other model's binding is untouched; and `Get` on a model that was
never registered fails with the not-found error `unknown model: <model>`. -/
theorem registry_register_get (r : Registry) (m other missing : String) (p q : Provider)
    (hother : other ≠ m) (hmissing : r missing = none) :
    ((r.Register m p).Get m = .ok p)
    ∧ (((r.Register m p).Register m q).Get m = .ok q)
    ∧ ((r.Register m p).Get other = r.Get other)
    ∧ (r.Get missing = .error ("unknown model: " ++ missing)) := by
  refine ⟨?_, ?_, ?_, ?_⟩
  · simp [Registry.Register, Registry.Get]
  · simp [Registry.Register, Registry.Get]
  · simp [Registry.Register, Registry.Get, hother]
  · simp [Registry.Get, hmissing]

/-- Witness for C8 at concrete model names and providers. -/
theorem registry_register_get_witness :
    ((NewRegistry.Register "a" (sampleProvider "openai" "X")).Get "a"
      = .ok (sampleProvider "openai" "X"))
    ∧ (((NewRegistry.Register "a" (sampleProvider "openai" "X")).Register "a"
          (sampleProvider "anthropic" "Y")).Get "a" = .ok (sampleProvider "anthropic" "Y"))
    ∧ ((NewRegistry.Register "a" (sampleProvider "openai" "X")).Get "b" = NewRegistry.Get "b")
    ∧ (NewRegistry.Get "c" = .error ("unknown model: " ++ "c")) :=
  registry_register_get NewRegistry "a" "b" "c" (sampleProvider "openai" "X")
    (sampleProvider "anthropic" "Y") (by decide) rfl

/-- C9: `Run` on the empty model list accumulates no warnings and returns
the all-models-failed error rendered with an empty warnings list; in
general, `Run` returns a run-level error exactly when the collected response
sequence is empty (every task returns nil to the errgroup, so the
zero-responses check is the only error exit). -/
theorem run_error_iff_empty_responses (r : Runner) (prompt : String) :
    (r.collect [] prompt).warnings = []
    ∧ r.Run [] prompt = .error ("all models failed: " ++ goFormatStringList [])
    ∧ ∀ models : List String,
        (∃ e, r.Run models prompt = .error e) ↔ (r.collect models prompt).responses = [] := by
  refine ⟨rfl, run_eq_error r [] prompt rfl, ?_⟩
  intro models
  constructor
  · rintro ⟨e, he⟩
    by_contra hne
    rw [run_eq_ok r models prompt hne] at he
    exact Except.noConfusion he
  · intro hnil
    exact ⟨_, run_eq_error r models prompt hnil⟩

/-- C10: `SynthesizeStream` with exactly one response and a non-nil chunk
callback invokes the callback exactly once with the single response's full
`Content` and returns that same `Content` as the consensus, issuing no
provider call. -/
theorem synthesizeStream_single_streams_once (j : consensusStream.Judge)
    (prompt : String) (r : Response) :
    consensusStream.Judge.SynthesizeStream j prompt [r] true = (.ok r.Content, [], [r.Content]) :=
  rfl

/-- C1: for every non-empty model list with at least one succeeding model,
`Run` returns a `Result` (no run-level error) in which at least one response
was collected, `Responses` holds exactly one entry per succeeding model,
`FailedModels` is exactly the sublist of failing models — so every requested
model contributes exactly one entry to one of the two, giving
`len(Responses) + len(FailedModels) = len(modelList)` and
`len(FailedModels) = len(modelList) - len(Responses)`. -/
theorem run_partial_tolerance (r : Runner) (models : List String) (prompt : String)
    (hne : models ≠ [])
    (hs : ∃ m, m ∈ models ∧ modelSucceeds r.registry prompt m = true) :
    ∃ res, r.Run models prompt = .ok res
      ∧ 1 ≤ res.Responses.length
      ∧ res.Responses.length
          = (models.filter (fun m => modelSucceeds r.registry prompt m)).length
      ∧ res.FailedModels = models.filter (fun m => !(modelSucceeds r.registry prompt m))
      ∧ res.Responses.length + res.FailedModels.length = models.length
      ∧ res.FailedModels.length = models.length - res.Responses.length := by
  obtain ⟨m, hm, hsm⟩ := hs
  have hfil : models.filter (fun m => modelSucceeds r.registry prompt m) ≠ [] :=
    List.ne_nil_of_mem (List.mem_filter.mpr ⟨hm, hsm⟩)
  have hlen : 1 ≤ (r.collect models prompt).responses.length := by
    rw [collect_responses_length]
    have := List.length_pos.mpr hfil
    omega
  have hne2 : (r.collect models prompt).responses ≠ [] := by
    intro hc
    rw [hc] at hlen
    simp at hlen
  have hsum := length_filter_add_length_filter_not models
    (fun m => modelSucceeds r.registry prompt m)
  refine ⟨_, run_eq_ok r models prompt hne2, ?_, ?_, ?_, ?_, ?_⟩
  · exact hlen
  · exact collect_responses_length r prompt models
  · exact collect_failedModels r prompt models
  · show (r.collect models prompt).responses.length
        + (r.collect models prompt).failedModels.length = models.length
    rw [collect_responses_length, collect_failedModels]
    exact hsum
  · show (r.collect models prompt).failedModels.length
        = models.length - (r.collect models prompt).responses.length
    rw [collect_responses_length, collect_failedModels]
    omega

/-- Witness for C1: models `a` (registered, succeeding) and `b`
(unregistered, failing). -/
theorem run_partial_tolerance_witness :
    (["a", "b"] : List String) ≠ []
    ∧ (∃ m, m ∈ (["a", "b"] : List String) ∧ modelSucceeds sampleRegistry "p" m = true)
    ∧ ∃ res, (Runner.New sampleRegistry 120).Run ["a", "b"] "p" = .ok res
      ∧ 1 ≤ res.Responses.length
      ∧ res.Responses.length
          = ((["a", "b"] : List String).filter (fun m => modelSucceeds sampleRegistry "p" m)).length
      ∧ res.FailedModels
          = (["a", "b"] : List String).filter (fun m => !(modelSucceeds sampleRegistry "p" m))
      ∧ res.Responses.length + res.FailedModels.length = (["a", "b"] : List String).length
      ∧ res.FailedModels.length = (["a", "b"] : List String).length - res.Responses.length :=
  ⟨by decide, ⟨"a", by decide, by decide⟩,
    run_partial_tolerance (Runner.New sampleRegistry 120) ["a", "b"] "p" (by decide)
      ⟨"a", by decide, by decide⟩⟩

/-- C4: when every model's task fails, `Run` returns the aggregate
`all models failed` error built from the accumulated per-model warnings (one
warning per requested model) and no `Result`; and `Synthesize` — in both
judge snapshots — with an empty response list fails immediately with an
error and issues no provider call. -/
theorem run_total_failure (r : Runner) (models : List String) (prompt : String)
    (j₁ : consensus.Judge) (j₂ : consensusStream.Judge) (p : String)
    (h : ∀ m ∈ models, modelSucceeds r.registry prompt m = false) :
    r.Run models prompt
      = .error ("all models failed: " ++ goFormatStringList (r.collect models prompt).warnings)
    ∧ (r.collect models prompt).warnings.length = models.length
    ∧ consensus.Judge.Synthesize j₁ p [] = (.error "no responses to synthesize", [])
    ∧ consensusStream.Judge.Synthesize j₂ p [] = (.error "no responses to synthesize", [], []) := by
  have hfil : models.filter (fun m => modelSucceeds r.registry prompt m) = [] := by
    simp only [List.filter_eq_nil_iff]
    intro a ha
    simp [h a ha]
  have hresp : (r.collect models prompt).responses = [] := by
    have hl := collect_responses_length r prompt models
    rw [hfil] at hl
    exact List.length_eq_zero.mp (by simpa using hl)
  have hwarn : (r.collect models prompt).warnings.length = models.length := by
    rw [collect_warnings_length]
    have hself : models.filter (fun m => !(modelSucceeds r.registry prompt m)) = models := by
      rw [List.filter_eq_self]
      intro a ha
      simp [h a ha]
    rw [hself]
  exact ⟨run_eq_error r models prompt hresp, hwarn, rfl, rfl⟩

/-- Witness for C4: a single unregistered model and concrete judges. -/
theorem run_total_failure_witness :
    (∀ m ∈ (["zz"] : List String), modelSucceeds NewRegistry "p" m = false)
    ∧ ((Runner.New NewRegistry 120).Run ["zz"] "p"
        = .error ("all models failed: "
            ++ goFormatStringList ((Runner.New NewRegistry 120).collect ["zz"] "p").warnings))
    ∧ (((Runner.New NewRegistry 120).collect ["zz"] "p").warnings.length
        = (["zz"] : List String).length)
    ∧ consensus.Judge.Synthesize (consensus.NewJudge (sampleProvider "test" "C") "jm") "q" []
        = (.error "no responses to synthesize", [])
    ∧ consensusStream.Judge.Synthesize
          (consensusStream.NewJudge (sampleProvider "test" "C") "jm") "q" []
        = (.error "no responses to synthesize", [], []) :=
  ⟨by decide,
    run_total_failure (Runner.New NewRegistry 120) ["zz"] "p"
      (consensus.NewJudge (sampleProvider "test" "C") "jm")
      (consensusStream.NewJudge (sampleProvider "test" "C") "jm") "q" (by decide)⟩

/-- C5: a model absent from the registry is treated exactly like a query
failure: it contributes the warning `<model>: unknown model: <model>` and
its name to `FailedModels`, the responses collected for the other models are
unchanged, the other models' failure entries are unchanged, and the run
returns a run-level error with the unregistered model present exactly when
it would without it. -/
theorem run_unregistered_model_isolated (r : Runner) (prompt : String)
    (pre post : List String) (m : String) (h : r.registry m = none) :
    ((r.collect (pre ++ m :: post) prompt).responses
        = (r.collect (pre ++ post) prompt).responses)
    ∧ ((r.collect (pre ++ m :: post) prompt).failedModels
        = (r.collect pre prompt).failedModels ++ m :: (r.collect post prompt).failedModels)
    ∧ ((r.collect (pre ++ m :: post) prompt).warnings
        = (r.collect pre prompt).warnings
            ++ (m ++ ": " ++ ("unknown model: " ++ m)) :: (r.collect post prompt).warnings)
    ∧ ((∃ res, r.Run (pre ++ m :: post) prompt = .ok res)
        ↔ (∃ res, r.Run (pre ++ post) prompt = .ok res)) := by
  have hout := taskOutcome_of_unregistered r.registry prompt m h
  have hsplit : r.collect (pre ++ m :: post) prompt
      = (r.collect pre prompt).app
          ((taskOutcome r.registry prompt m).app (r.collect post prompt)) := by
    rw [Runner.collect_append, Runner.collect_cons]
  have hsplit2 : r.collect (pre ++ post) prompt
      = (r.collect pre prompt).app (r.collect post prompt) :=
    Runner.collect_append r prompt pre post
  have hresp : (r.collect (pre ++ m :: post) prompt).responses
      = (r.collect (pre ++ post) prompt).responses := by
    rw [hsplit, hsplit2, hout]
    simp [RunState.app]
  refine ⟨hresp, ?_, ?_, ?_⟩
  · rw [hsplit, hout]
    simp [RunState.app]
  · rw [hsplit, hout]
    simp [RunState.app]
  · rw [run_ok_iff, run_ok_iff, hresp]

/-- Witness for C5: model `zz` unregistered next to the registered model
`a`. -/
theorem run_unregistered_model_isolated_witness :
    (sampleRegistry "zz" = none)
    ∧ (((Runner.New sampleRegistry 120).collect (["a"] ++ "zz" :: []) "p").responses
        = ((Runner.New sampleRegistry 120).collect (["a"] ++ []) "p").responses)
    ∧ (((Runner.New sampleRegistry 120).collect (["a"] ++ "zz" :: []) "p").failedModels
        = ((Runner.New sampleRegistry 120).collect ["a"] "p").failedModels
            ++ "zz" :: ((Runner.New sampleRegistry 120).collect [] "p").failedModels)
    ∧ (((Runner.New sampleRegistry 120).collect (["a"] ++ "zz" :: []) "p").warnings
        = ((Runner.New sampleRegistry 120).collect ["a"] "p").warnings
            ++ ("zz" ++ ": " ++ ("unknown model: " ++ "zz"))
              :: ((Runner.New sampleRegistry 120).collect [] "p").warnings)
    ∧ ((∃ res, (Runner.New sampleRegistry 120).Run (["a"] ++ "zz" :: []) "p" = .ok res)
        ↔ (∃ res, (Runner.New sampleRegistry 120).Run (["a"] ++ []) "p" = .ok res)) :=
  ⟨rfl, run_unregistered_model_isolated (Runner.New sampleRegistry 120) "p" ["a"] [] "zz" rfl⟩

/-- C2: with two or more responses, the streaming judge sends exactly the
constructed judge prompt to the judge provider through `QueryStream`
(passing the callback through), and whenever the provider honours the §4.1
streaming contract at that request — its chunks concatenate to the returned
content — the chunks delivered to the supplied callback, concatenated in
delivery order, equal the consensus text `SynthesizeStream` returns. -/
theorem synthesizeStream_uses_queryStream (j : consensusStream.Judge) (prompt : String)
    (r₁ r₂ : Response) (rest : List Response) (resp : Response) (chunks : List String)
    (hq : j.provider.QueryStream
        { Model := j.model, Prompt := consensusStream.buildJudgePrompt prompt (r₁ :: r₂ :: rest) }
        true = (.ok resp, chunks))
    (hcat : String.join chunks = resp.Content) :
    consensusStream.Judge.SynthesizeStream j prompt (r₁ :: r₂ :: rest) true
      = (.ok resp.Content,
          [{ Model := j.model,
             Prompt := consensusStream.buildJudgePrompt prompt (r₁ :: r₂ :: rest) }],
          chunks)
    ∧ String.join chunks = resp.Content := by
  refine ⟨?_, hcat⟩
  simp [consensusStream.Judge.SynthesizeStream, hq]

/-- Witness for C2: two concrete responses and a judge whose adapter-based
provider streams its full answer as one chunk. -/
theorem synthesizeStream_uses_queryStream_witness :
    ((consensusStream.NewJudge (sampleProvider "test" "XY") "judge-model").provider.QueryStream
        { Model := (consensusStream.NewJudge (sampleProvider "test" "XY") "judge-model").model,
          Prompt := consensusStream.buildJudgePrompt "orig" [respA, respB] } true
      = (.ok { Model := "judge-model", Content := "XY", Provider := "test", Latency := 0 }, ["XY"]))
    ∧ (consensusStream.Judge.SynthesizeStream
          (consensusStream.NewJudge (sampleProvider "test" "XY") "judge-model")
          "orig" [respA, respB] true
        = (.ok "XY",
            [{ Model := "judge-model",
               Prompt := consensusStream.buildJudgePrompt "orig" [respA, respB] }],
            ["XY"])
        ∧ String.join ["XY"] = "XY") :=
  ⟨rfl,
    synthesizeStream_uses_queryStream
      (consensusStream.NewJudge (sampleProvider "test" "XY") "judge-model")
      "orig" respA respB []
      { Model := "judge-model", Content := "XY", Provider := "test", Latency := 0 }
      ["XY"] rfl (by decide)⟩

/-- C6: with two or more responses, the Query-based judge of
internal/consensus/judge.go sends exactly one request whose prompt is the
expanded template, and that template expansion contains — in order — the
original user prompt and then, for every input response in input order, its
model name, provider name and full content; the streaming snapshot's
template expansion satisfies the same containment. -/
theorem judge_prompt_completeness (j : consensus.Judge) (prompt : String)
    (r₁ r₂ : Response) (rest : List Response) :
    (consensus.Judge.Synthesize j prompt (r₁ :: r₂ :: rest)).2
      = [{ Model := j.model, Prompt := consensus.buildJudgePrompt prompt (r₁ :: r₂ :: rest) }]
    ∧ containsInOrder (consensus.buildJudgePrompt prompt (r₁ :: r₂ :: rest))
        (prompt :: responseNeedles (r₁ :: r₂ :: rest))
    ∧ containsInOrder (consensusStream.buildJudgePrompt prompt (r₁ :: r₂ :: rest))
        (prompt :: responseNeedles (r₁ :: r₂ :: rest)) := by
  refine ⟨?_, ?_, ?_⟩
  · cases hq : j.provider.Query
        { Model := j.model, Prompt := consensus.buildJudgePrompt prompt (r₁ :: r₂ :: rest) } with
    | error e => simp [consensus.Judge.Synthesize, hq]
    | ok resp => simp [consensus.Judge.Synthesize, hq]
  · refine ⟨consensus.tmplHead,
      consensus.tmplMid
        ++ (foldBlocks consensus.blockOf (r₁ :: r₂ :: rest) ++ consensus.tmplTail), ?_, ?_⟩
    · simp [consensus.buildJudgePrompt, String.append_assoc]
    · exact containsInOrder_append_left _ _ _
        (foldBlocks_contains "\n--- " " (" ") ---\n" "\n\n" consensus.blockOf
          (fun r => rfl) consensus.tmplTail (r₁ :: r₂ :: rest))
  · refine ⟨consensusStream.tmplHead,
      consensusStream.tmplMid
        ++ (foldBlocks consensusStream.blockOf (r₁ :: r₂ :: rest)
            ++ consensusStream.tmplTail), ?_, ?_⟩
    · simp [consensusStream.buildJudgePrompt, String.append_assoc]
    · exact containsInOrder_append_left _ _ _
        (foldBlocks_contains "\n--- Model: " " | Provider: " " ---\n" "\n\n"
          consensusStream.blockOf (fun r => rfl) consensusStream.tmplTail (r₁ :: r₂ :: rest))

end LLMC
